import Mathlib

/-!
Verification of the Server-Monitoring-System agent (`agent/monitor_agent.py`)
against its specification.

The agent is shallowly embedded:

* `load_config` mirrors `MonitoringAgent.load_config`: the state of the
  configuration file is a `ConfigSource`; only the `FileNotFoundError`
  branch (`ConfigSource.absent`) is handled in the source, every other
  failure propagates as a `LoadError`.
* `send_metrics` mirrors `MonitoringAgent.send_metrics`: the behaviour of
  the collector on attempt `i` is given by `outcomes i`; the function
  returns the sequence of observable events (HTTP attempts, sleeps, the
  terminal error log) together with the boolean result, or a `PyError`
  when a configuration key lookup fails.
* `collect_metrics` mirrors `MonitoringAgent.collect_metrics`: each psutil
  query is a field of `OSReading` that either yields a value or raises;
  byte counters are `Nat`, percentages and load averages are `ℚ`.
* `runCycle` mirrors one iteration of `MonitoringAgent.run`, and
  `runCycles` the loop over a list of per-cycle inputs.
-/

namespace MonitorAgent

/-! ## Configuration and `load_config` -/

/-- The resolved configuration dictionary.  Each field is optional because a
user-supplied JSON file may omit any key; lookups `config[k]` raise
`KeyError` on a missing key while `config.get(k, d)` falls back to `d`. -/
structure Config where
  central_server : Option String
  server_name : Option String
  collect_interval : Option Nat
  retry_attempts : Option Nat
  retry_delay : Option Nat
deriving DecidableEq, Repr

/-- The state of the configuration file on disk. -/
inductive ConfigSource where
  | absent
  | unreadable
  | malformed
  | valid (cfg : Config)
deriving DecidableEq, Repr

/-- Exceptions that can escape `load_config`. -/
inductive LoadError where
  | oserror
  | jsonDecodeError
deriving DecidableEq, Repr

/-- The built-in default configuration returned when the config file is
absent (`socket.gethostname()` is the `hostname` argument). -/
def defaultConfig (hostname : String) : Config :=
  { central_server := some "http://localhost:5000"
    server_name := some hostname
    collect_interval := some 60
    retry_attempts := some 3
    retry_delay := some 10 }

/-- Embedding of `MonitoringAgent.load_config`: the `try` block catches only
`FileNotFoundError`; an unreadable file (`OSError`) or an unparseable file
(`json.JSONDecodeError`) propagates out of the method. -/
def load_config (src : ConfigSource) (hostname : String) : Except LoadError Config :=
  match src with
  | ConfigSource.absent => Except.ok (defaultConfig hostname)
  | ConfigSource.unreadable => Except.error LoadError.oserror
  | ConfigSource.malformed => Except.error LoadError.jsonDecodeError
  | ConfigSource.valid cfg => Except.ok cfg

/-- Embedding of the `self.config.get` call in `MonitoringAgent.__init__`
that resolves the server_name key with `socket.gethostname()` as default. -/
def initServerName (cfg : Config) (hostname : String) : String :=
  cfg.server_name.getD hostname

/-! ## `send_metrics` -/

/-- What the collector does on one HTTP POST attempt: either a response with
some status code, or a transport-level failure
(`requests.exceptions.RequestException`: connection refused, timeout, DNS
failure, ...). -/
inductive AttemptOutcome where
  | response (status : Nat)
  | transportError
deriving DecidableEq, Repr

/-- Observable events of one `send_metrics` call. -/
inductive Event where
  | attempt (o : AttemptOutcome)
  | sleep (seconds : Nat)
  | logExhausted
deriving DecidableEq, Repr

/-- Exceptions escaping `send_metrics` (missing configuration keys). -/
inductive PyError where
  | keyError (key : String)
deriving DecidableEq, Repr

/-- The body of the `for attempt in range(retry_attempts)` loop of
`MonitoringAgent.send_metrics`, iterated over the list of remaining
attempt indices.  A 200 response returns `true` immediately; any other
status logs a warning and falls through to the next attempt with no sleep;
a transport failure logs an error and, when `attempt < retry_attempts - 1`,
sleeps `retry_delay` seconds (reading the retry_delay key only then).
Falling off the loop logs the terminal error and returns `false`. -/
def sendAttempts (ra : Nat) (rd : Option Nat) (outcomes : Nat → AttemptOutcome) :
    List Nat → Except PyError (List Event × Bool)
  | [] => Except.ok ([Event.logExhausted], false)
  | attempt :: rest =>
    match outcomes attempt with
    | AttemptOutcome.response s =>
      if s = 200 then
        Except.ok ([Event.attempt (AttemptOutcome.response s)], true)
      else
        match sendAttempts ra rd outcomes rest with
        | Except.ok (evs, b) =>
            Except.ok (Event.attempt (AttemptOutcome.response s) :: evs, b)
        | Except.error e => Except.error e
    | AttemptOutcome.transportError =>
      if attempt < ra - 1 then
        match rd with
        | none => Except.error (PyError.keyError "retry_delay")
        | some d =>
          match sendAttempts ra rd outcomes rest with
          | Except.ok (evs, b) =>
              Except.ok (Event.attempt AttemptOutcome.transportError ::
                Event.sleep d :: evs, b)
          | Except.error e => Except.error e
      else
        match sendAttempts ra rd outcomes rest with
        | Except.ok (evs, b) =>
            Except.ok (Event.attempt AttemptOutcome.transportError :: evs, b)
        | Except.error e => Except.error e

/-- Embedding of `MonitoringAgent.send_metrics`.  The central_server key is
read first (building the URL), then retry_attempts (the loop bound); either
lookup raises `KeyError` when the key is missing. -/
def send_metrics (cfg : Config) (outcomes : Nat → AttemptOutcome) :
    Except PyError (List Event × Bool) :=
  match cfg.central_server with
  | none => Except.error (PyError.keyError "central_server")
  | some _ =>
    match cfg.retry_attempts with
    | none => Except.error (PyError.keyError "retry_attempts")
    | some ra => sendAttempts ra cfg.retry_delay outcomes (List.range ra)

/-- Recognize HTTP-attempt events in a trace. -/
def isAttemptEvent : Event → Bool
  | Event.attempt _ => true
  | _ => false

/-- Recognize sleep events in a trace. -/
def isSleepEvent : Event → Bool
  | Event.sleep _ => true
  | _ => false

/-- Number of HTTP POST attempts recorded in a trace. -/
def countAttempts (evs : List Event) : Nat :=
  (evs.filter isAttemptEvent).length

/-- Number of retry sleeps recorded in a trace. -/
def countSleeps (evs : List Event) : Nat :=
  (evs.filter isSleepEvent).length

/-- Is this outcome a transport-level failure? -/
def isTransport : AttemptOutcome → Bool
  | AttemptOutcome.transportError => true
  | _ => false

/-- Number of transport-level failures among attempts `a, a+1, ..., a+t-1`. -/
def transportCount (outcomes : Nat → AttemptOutcome) (a t : Nat) : Nat :=
  ((List.range' a t).filter (fun i => isTransport (outcomes i))).length

/-! ## `collect_metrics` -/

/-- A psutil call that raised. -/
inductive OSError where
  | osError
deriving DecidableEq, Repr

deriving instance DecidableEq for Except

/-- Reading of `psutil.virtual_memory()`. -/
structure MemReading where
  total : Nat
  available : Nat
  percent : ℚ
  used : Nat
  free : Nat
deriving DecidableEq, Repr

/-- Reading of `psutil.disk_usage` on the root filesystem. -/
structure DiskReading where
  total : Nat
  used : Nat
  free : Nat
deriving DecidableEq, Repr

/-- Reading of `psutil.net_io_counters()`. -/
structure NetReading where
  bytes_sent : Nat
  bytes_recv : Nat
  packets_sent : Nat
  packets_recv : Nat
deriving DecidableEq, Repr

/-- Reading of `psutil.getloadavg()`: 1-, 5- and 15-minute load averages. -/
structure LoadAvg where
  one : ℚ
  five : ℚ
  fifteen : ℚ
deriving DecidableEq, Repr

/-- The per-cycle view of the operating system: each counter category either
yields a value or raises.  `getloadavg = none` models a platform where
psutil lacks the getloadavg attribute; `some r` a platform exposing it,
where the call itself may still raise. -/
structure OSReading where
  cpu_percent : Except OSError ℚ
  cpu_count : Except OSError Nat
  memory : Except OSError MemReading
  disk : Except OSError DiskReading
  network : Except OSError NetReading
  getloadavg : Option (Except OSError LoadAvg)
  pids_len : Except OSError Nat
  timestamp : String
deriving DecidableEq, Repr

/-- The metrics dictionary built by `collect_metrics`, flattened. -/
structure Metrics where
  server_name : String
  timestamp : String
  cpu_percent : ℚ
  cpu_count : Nat
  load_avg_1m : ℚ
  load_avg_5m : ℚ
  load_avg_15m : ℚ
  mem_total : Nat
  mem_available : Nat
  mem_percent : ℚ
  mem_used : Nat
  mem_free : Nat
  disk_total : Nat
  disk_used : Nat
  disk_free : Nat
  disk_percent : ℚ
  net_bytes_sent : Nat
  net_bytes_recv : Nat
  net_packets_sent : Nat
  net_packets_recv : Nat
  processes : Nat
deriving DecidableEq, Repr

/-- A raised psutil call becomes `none` (the surrounding `except Exception`
returns `None`). -/
def exceptToOption {α : Type} : Except OSError α → Option α
  | Except.ok a => some a
  | Except.error _ => none

/-- Embedding of the conditional that reads `psutil.getloadavg()` when
psutil has the getloadavg attribute and zero-fills otherwise. -/
def resolveLoadAvg : Option (Except OSError LoadAvg) → Option LoadAvg
  | none => some (LoadAvg.mk 0 0 0)
  | some r => exceptToOption r

/-- The `metrics` dictionary literal of `collect_metrics`; `disk.percent` is
the only derived field: `(disk.used / disk.total) * 100`. -/
def mkMetrics (server_name timestamp : String) (cpu_percent : ℚ) (cpu_count : Nat)
    (load_avg : LoadAvg) (memory : MemReading) (disk : DiskReading)
    (network : NetReading) (process_count : Nat) : Metrics :=
  { server_name := server_name
    timestamp := timestamp
    cpu_percent := cpu_percent
    cpu_count := cpu_count
    load_avg_1m := load_avg.one
    load_avg_5m := load_avg.five
    load_avg_15m := load_avg.fifteen
    mem_total := memory.total
    mem_available := memory.available
    mem_percent := memory.percent
    mem_used := memory.used
    mem_free := memory.free
    disk_total := disk.total
    disk_used := disk.used
    disk_free := disk.free
    disk_percent := ((disk.used : ℚ) / (disk.total : ℚ)) * 100
    net_bytes_sent := network.bytes_sent
    net_bytes_recv := network.bytes_recv
    net_packets_sent := network.packets_sent
    net_packets_recv := network.packets_recv
    processes := process_count }

/-- `MonitoringAgent.collect_metrics`: the psutil queries in source order,
all inside one `try`; the first raised exception aborts the whole sample and
the method returns `None`. -/
def collect_metrics (server_name : String) (os : OSReading) : Option Metrics :=
  match os.cpu_percent with
  | Except.error _ => none
  | Except.ok cpu_percent =>
    match os.cpu_count with
    | Except.error _ => none
    | Except.ok cpu_count =>
      match os.memory with
      | Except.error _ => none
      | Except.ok memory =>
        match os.disk with
        | Except.error _ => none
        | Except.ok disk =>
          match os.network with
          | Except.error _ => none
          | Except.ok network =>
            match resolveLoadAvg os.getloadavg with
            | none => none
            | some load_avg =>
              match os.pids_len with
              | Except.error _ => none
              | Except.ok process_count =>
                some (mkMetrics server_name os.timestamp cpu_percent cpu_count
                  load_avg memory disk network process_count)

/-! ## The run loop -/

/-- Observable events of one iteration of `MonitoringAgent.run`. -/
inductive CycleEvent where
  | sendTrace (evs : List Event) (result : Bool)
  | logCollectFailed
  | logUnexpected
  | sleepInterval (seconds : Nat)
deriving DecidableEq, Repr

/-- The environment of one cycle: what the OS reports during collection and
what the collector does on each send attempt. -/
structure CycleInput where
  os : OSReading
  outcomes : Nat → AttemptOutcome

/-- Embedding of the sleep on the collect_interval key at the end of a
cycle; a missing key raises `KeyError`, caught by the top-level handler of
the loop, which logs the unexpected error and sleeps a fixed 30 seconds. -/
def withSleep (cfg : Config) (evs : List CycleEvent) : List CycleEvent :=
  match cfg.collect_interval with
  | some ci => evs ++ [CycleEvent.sleepInterval ci]
  | none => evs ++ [CycleEvent.logUnexpected, CycleEvent.sleepInterval 30]

/-- One iteration of the `while True` loop of `MonitoringAgent.run`:
collect; if a sample was produced, send it (any exception escaping
`send_metrics` is caught by `except Exception`, which logs and sleeps 30
seconds); otherwise log the collection error; then sleep the collection
interval. -/
def runCycle (cfg : Config) (name : String) (inp : CycleInput) : List CycleEvent :=
  match collect_metrics name inp.os with
  | some _ =>
    match send_metrics cfg inp.outcomes with
    | Except.ok (evs, b) => withSleep cfg [CycleEvent.sendTrace evs b]
    | Except.error _ => [CycleEvent.logUnexpected, CycleEvent.sleepInterval 30]
  | none => withSleep cfg [CycleEvent.logCollectFailed]

/-- The run loop over a list of per-cycle environments.  The loop body keeps
no state between iterations (no queue of samples), so the loop is exactly a
map of `runCycle` over the inputs. -/
def runCycles (cfg : Config) (name : String) (inps : List CycleInput) :
    List (List CycleEvent) :=
  inps.map (runCycle cfg name)


@[simp]
theorem countAttempts_nil : countAttempts [] = 0 := rfl

@[simp]
theorem countAttempts_cons_attempt (o : AttemptOutcome) (evs : List Event) :
    countAttempts (Event.attempt o :: evs) = countAttempts evs + 1 := by
  simp [countAttempts, isAttemptEvent, List.filter_cons]

@[simp]
theorem countAttempts_cons_sleep (d : Nat) (evs : List Event) :
    countAttempts (Event.sleep d :: evs) = countAttempts evs := by
  simp [countAttempts, isAttemptEvent, List.filter_cons]

@[simp]
theorem countAttempts_cons_exhausted (evs : List Event) :
    countAttempts (Event.logExhausted :: evs) = countAttempts evs := by
  simp [countAttempts, isAttemptEvent, List.filter_cons]

@[simp]
theorem countSleeps_nil : countSleeps [] = 0 := rfl

@[simp]
theorem countSleeps_cons_attempt (o : AttemptOutcome) (evs : List Event) :
    countSleeps (Event.attempt o :: evs) = countSleeps evs := by
  simp [countSleeps, isSleepEvent, List.filter_cons]

@[simp]
theorem countSleeps_cons_sleep (d : Nat) (evs : List Event) :
    countSleeps (Event.sleep d :: evs) = countSleeps evs + 1 := by
  simp [countSleeps, isSleepEvent, List.filter_cons]

@[simp]
theorem countSleeps_cons_exhausted (evs : List Event) :
    countSleeps (Event.logExhausted :: evs) = countSleeps evs := by
  simp [countSleeps, isSleepEvent, List.filter_cons]

@[simp]
theorem transportCount_zero (outcomes : Nat → AttemptOutcome) (a : Nat) :
    transportCount outcomes a 0 = 0 := rfl

theorem transportCount_succ (outcomes : Nat → AttemptOutcome) (a t : Nat) :
    transportCount outcomes a (t + 1) =
      (if isTransport (outcomes a) then 1 else 0) + transportCount outcomes (a + 1) t := by
  simp only [transportCount, List.range'_succ, List.filter_cons]
  cases h : isTransport (outcomes a) <;> simp [h, Nat.add_comm]

/-- Core lemma for a `send_metrics` run whose success comes at relative
position `t` of the remaining attempt indices `a, ..., a + m - 1`. -/
theorem sendAttempts_success (ra d : Nat) (outcomes : Nat → AttemptOutcome) :
    ∀ t a m, a + m = ra → t < m →
      (∀ j, j < t → outcomes (a + j) ≠ AttemptOutcome.response 200) →
      outcomes (a + t) = AttemptOutcome.response 200 →
      ∃ evs, sendAttempts ra (some d) outcomes (List.range' a m) = Except.ok (evs, true) ∧
        countAttempts evs = t + 1 ∧ countSleeps evs = transportCount outcomes a t := by
  intro t
  induction t with
  | zero =>
    intro a m hm hlt hfail hsucc
    obtain ⟨m', rfl⟩ : ∃ k, m = k + 1 := ⟨m - 1, by omega⟩
    rw [Nat.add_zero] at hsucc
    refine ⟨[Event.attempt (AttemptOutcome.response 200)], ?_, by simp, by simp⟩
    rw [List.range'_succ]
    simp only [sendAttempts]
    rw [hsucc]
    rfl
  | succ t ih =>
    intro a m hm hlt hfail hsucc
    obtain ⟨m', rfl⟩ : ∃ k, m = k + 1 := ⟨m - 1, by omega⟩
    have hshift : ∀ j, j < t → outcomes (a + 1 + j) ≠ AttemptOutcome.response 200 := by
      intro j hj
      have h := hfail (j + 1) (by omega)
      rwa [show a + (j + 1) = a + 1 + j by omega] at h
    have hsucc' : outcomes (a + 1 + t) = AttemptOutcome.response 200 := by
      rwa [show a + (t + 1) = a + 1 + t by omega] at hsucc
    obtain ⟨evs', hrun, hca, hcs⟩ := ih (a + 1) m' (by omega) (by omega) hshift hsucc'
    have h0 := hfail 0 (by omega)
    rw [Nat.add_zero] at h0
    rw [List.range'_succ]
    cases ho : outcomes a with
    | response s =>
      have hs : ¬ (s = 200) := by
        intro hc
        rw [hc] at ho
        exact h0 ho
      refine ⟨Event.attempt (AttemptOutcome.response s) :: evs', ?_, ?_, ?_⟩
      · simp only [sendAttempts]
        rw [ho]
        simp only [hs, if_false, hrun]
      · simp [hca]
      · rw [countSleeps_cons_attempt, transportCount_succ, ho]
        simp [isTransport, hcs]
    | transportError =>
      have hlt2 : a < ra - 1 := by omega
      refine ⟨Event.attempt AttemptOutcome.transportError :: Event.sleep d :: evs', ?_, ?_, ?_⟩
      · simp only [sendAttempts]
        rw [ho]
        simp only [hlt2, if_true, hrun, if_pos]
      · simp [hca]
      · rw [countSleeps_cons_attempt, countSleeps_cons_sleep, transportCount_succ, ho]
        simp [isTransport, hcs, Nat.add_comm]


/-- Core lemma for a `send_metrics` run in which every remaining attempt
fails.  The trace records one attempt per index, a sleep after each
transport failure except at the last index `ra - 1`, and the terminal
error log. -/
theorem sendAttempts_allFail (ra d : Nat) (outcomes : Nat → AttemptOutcome) :
    ∀ m a, a + m = ra →
      (∀ j, j < m → outcomes (a + j) ≠ AttemptOutcome.response 200) →
      ∃ evs, sendAttempts ra (some d) outcomes (List.range' a m) = Except.ok (evs, false) ∧
        countAttempts evs = m ∧ countSleeps evs = transportCount outcomes a (m - 1) ∧
        Event.logExhausted ∈ evs := by
  intro m
  induction m with
  | zero =>
    intro a hm hfail
    exact ⟨[Event.logExhausted], rfl, by simp, by simp, by simp⟩
  | succ m ih =>
    intro a hm hfail
    have hshift : ∀ j, j < m → outcomes (a + 1 + j) ≠ AttemptOutcome.response 200 := by
      intro j hj
      have h := hfail (j + 1) (by omega)
      rwa [show a + (j + 1) = a + 1 + j by omega] at h
    obtain ⟨evs', hrun, hca, hcs, hmem⟩ := ih (a + 1) (by omega) hshift
    have h0 := hfail 0 (by omega)
    rw [Nat.add_zero] at h0
    rw [List.range'_succ]
    cases ho : outcomes a with
    | response s =>
      have hs : ¬ (s = 200) := by
        intro hc
        rw [hc] at ho
        exact h0 ho
      refine ⟨Event.attempt (AttemptOutcome.response s) :: evs', ?_, ?_, ?_, ?_⟩
      · simp only [sendAttempts]
        rw [ho]
        simp only [hs, if_false, hrun]
      · simp [hca]
      · rw [countSleeps_cons_attempt, hcs, Nat.add_sub_cancel]
        rcases Nat.eq_zero_or_pos m with hm0 | hmpos
        · subst hm0
          simp
        · obtain ⟨m'', rfl⟩ : ∃ k, m = k + 1 := ⟨m - 1, by omega⟩
          rw [Nat.add_sub_cancel, transportCount_succ, ho]
          simp [isTransport]
      · exact List.mem_cons_of_mem _ hmem
    | transportError =>
      rcases Nat.eq_zero_or_pos m with hm0 | hmpos
      · subst hm0
        have hnlt : ¬ (a < ra - 1) := by omega
        refine ⟨[Event.attempt AttemptOutcome.transportError, Event.logExhausted], ?_, ?_, ?_, ?_⟩
        · simp only [sendAttempts, List.range'_succ] at hrun ⊢
          rw [ho]
          simp only [hnlt, if_false, hrun]
        · simp
        · simp
        · simp
      · have hlt2 : a < ra - 1 := by omega
        refine ⟨Event.attempt AttemptOutcome.transportError :: Event.sleep d :: evs', ?_, ?_, ?_, ?_⟩
        · simp only [sendAttempts]
          rw [ho]
          simp only [hlt2, if_true, hrun, if_pos]
        · simp [hca]
        · rw [countSleeps_cons_attempt, countSleeps_cons_sleep, hcs, Nat.add_sub_cancel]
          obtain ⟨m'', rfl⟩ : ∃ k, m = k + 1 := ⟨m - 1, by omega⟩
          rw [Nat.add_sub_cancel, transportCount_succ, ho]
          simp [isTransport, Nat.add_comm]
        · exact List.mem_cons_of_mem _ (List.mem_cons_of_mem _ hmem)

/-- Rewriting `send_metrics` to its loop once all three configuration keys
are present. -/
theorem send_metrics_eq (cfg : Config) (u : String) (n d : Nat)
    (outcomes : Nat → AttemptOutcome)
    (hcs : cfg.central_server = some u) (hra : cfg.retry_attempts = some n)
    (hrd : cfg.retry_delay = some d) :
    send_metrics cfg outcomes = sendAttempts n (some d) outcomes (List.range' 0 n) := by
  simp only [send_metrics, hcs, hra, hrd, List.range_eq_range']

/-- Collector behaviour refuting C1: attempt 0 answers HTTP 500, every later
attempt answers HTTP 200. -/
def outcomesC1 : Nat → AttemptOutcome := fun i =>
  if i = 0 then AttemptOutcome.response 500 else AttemptOutcome.response 200

/-- Configuration for the C1 counterexample: defaults with
`retry_attempts = 2`. -/
def cfgC1 : Config := { defaultConfig "host" with retry_attempts := some 2 }

/-- C1 is false as stated: with `retry_attempts = 2`, a first attempt failing
by non-200 status and a second succeeding (`k = 2`), `send_metrics` makes 2
attempts but sleeps 0 times, not `k - 1 = 1`: the code only sleeps inside the
`except RequestException` handler, so no sleep separates a non-200-status
attempt from the next attempt. -/
theorem C1_counterexample_no_sleep_after_non200 :
    send_metrics cfgC1 outcomesC1 =
      Except.ok ([Event.attempt (AttemptOutcome.response 500),
        Event.attempt (AttemptOutcome.response 200)], true) ∧
    countSleeps [Event.attempt (AttemptOutcome.response 500),
        Event.attempt (AttemptOutcome.response 200)] = 0 ∧
    (0 : Nat) ≠ 2 - 1 := by
  refine ⟨rfl, rfl, by decide⟩

/-- C1 (amended): when the first `k - 1` attempts fail and attempt `k`
succeeds (`1 ≤ k ≤ retry_attempts`), `send_metrics` returns success with
exactly `k` attempts, and sleeps `retry_delay` exactly once per
transport-level failure among the first `k - 1` attempts — never after a
non-200-status attempt and never after the final attempt. -/
theorem C1_amended_retry_trace (cfg : Config) (u : String) (n d k : Nat)
    (outcomes : Nat → AttemptOutcome)
    (hcs : cfg.central_server = some u)
    (hra : cfg.retry_attempts = some n)
    (hrd : cfg.retry_delay = some d)
    (hk : 1 ≤ k) (hkn : k ≤ n)
    (hfail : ∀ j, j < k - 1 → outcomes j ≠ AttemptOutcome.response 200)
    (hsucc : outcomes (k - 1) = AttemptOutcome.response 200) :
    ∃ evs, send_metrics cfg outcomes = Except.ok (evs, true) ∧
      countAttempts evs = k ∧
      countSleeps evs = transportCount outcomes 0 (k - 1) := by
  obtain ⟨evs, hrun, hca, hcs'⟩ :=
    sendAttempts_success n d outcomes (k - 1) 0 n (by omega) (by omega)
      (by intro j hj; rw [Nat.zero_add]; exact hfail j hj)
      (by rw [Nat.zero_add]; exact hsucc)
  refine ⟨evs, ?_, by omega, hcs'⟩
  rw [send_metrics_eq cfg u n d outcomes hcs hra hrd, hrun]

/-- Collector for the C1 witness: two transport failures, then HTTP 200. -/
def outcomesW1 : Nat → AttemptOutcome := fun i =>
  if i < 2 then AttemptOutcome.transportError else AttemptOutcome.response 200

theorem C1_amended_retry_trace_witness :
    ∃ evs, send_metrics (defaultConfig "host") outcomesW1 = Except.ok (evs, true) ∧
      countAttempts evs = 3 ∧
      countSleeps evs = transportCount outcomesW1 0 2 :=
  C1_amended_retry_trace (defaultConfig "host") "http://localhost:5000" 3 10 3 outcomesW1
    rfl rfl rfl (by decide) (by decide) (by decide) (by decide)

/-- C3: an attempt succeeds exactly on an HTTP 200 response.  If the first
attempt whose outcome is a 200 response is attempt `t` (0-based) then
`send_metrics` returns `true` after exactly `t + 1` attempts (it stops
immediately); if no attempt within the bound answers 200 — any other status
or any transport failure counting as a failed attempt — it returns `false`
after all `n` attempts. -/
theorem C3_success_iff_200 (cfg : Config) (u : String) (n d : Nat)
    (outcomes : Nat → AttemptOutcome)
    (hcs : cfg.central_server = some u)
    (hra : cfg.retry_attempts = some n)
    (hrd : cfg.retry_delay = some d) :
    (∀ t, t < n → (∀ j, j < t → outcomes j ≠ AttemptOutcome.response 200) →
        outcomes t = AttemptOutcome.response 200 →
        ∃ evs, send_metrics cfg outcomes = Except.ok (evs, true) ∧
          countAttempts evs = t + 1) ∧
    ((∀ j, j < n → outcomes j ≠ AttemptOutcome.response 200) →
        ∃ evs, send_metrics cfg outcomes = Except.ok (evs, false) ∧
          countAttempts evs = n) := by
  constructor
  · intro t hlt hfail hsucc
    obtain ⟨evs, hrun, hca, _⟩ :=
      sendAttempts_success n d outcomes t 0 n (by omega) hlt
        (by intro j hj; rw [Nat.zero_add]; exact hfail j hj)
        (by rw [Nat.zero_add]; exact hsucc)
    refine ⟨evs, ?_, hca⟩
    rw [send_metrics_eq cfg u n d outcomes hcs hra hrd, hrun]
  · intro hfail
    obtain ⟨evs, hrun, hca, _, _⟩ :=
      sendAttempts_allFail n d outcomes n 0 (by omega)
        (by intro j hj; rw [Nat.zero_add]; exact hfail j hj)
    refine ⟨evs, ?_, hca⟩
    rw [send_metrics_eq cfg u n d outcomes hcs hra hrd, hrun]

/-- Collector for the C3 witness: one transport failure, then HTTP 200. -/
def outcomesW3 : Nat → AttemptOutcome := fun i =>
  if i = 0 then AttemptOutcome.transportError else AttemptOutcome.response 200

theorem C3_success_iff_200_witness :
    ∃ evs, send_metrics (defaultConfig "host") outcomesW3 = Except.ok (evs, true) ∧
      countAttempts evs = 2 :=
  (C3_success_iff_200 (defaultConfig "host") "http://localhost:5000" 3 10 outcomesW3
    rfl rfl rfl).1 1 (by decide) (by decide) (by decide)

/-- C4: when every attempt fails, `send_metrics` makes exactly
`retry_attempts` attempts, logs the terminal error, and returns `false`;
and the run loop keeps no state between cycles — cycle `i` of `runCycles`
is a function of the input of cycle `i` alone, so the dropped sample is never
queued or retried in a later cycle. -/
theorem C4_exhaustion_drops_sample (cfg : Config) (u name : String) (n d : Nat)
    (outcomes : Nat → AttemptOutcome) (inps : List CycleInput)
    (hcs : cfg.central_server = some u)
    (hra : cfg.retry_attempts = some n)
    (hrd : cfg.retry_delay = some d)
    (hn : 1 ≤ n)
    (hfail : ∀ j, j < n → outcomes j ≠ AttemptOutcome.response 200) :
    (∃ evs, send_metrics cfg outcomes = Except.ok (evs, false) ∧
      countAttempts evs = n ∧ Event.logExhausted ∈ evs) ∧
    (∀ i : Nat, (runCycles cfg name inps)[i]? =
      Option.map (runCycle cfg name) inps[i]?) := by
  constructor
  · obtain ⟨evs, hrun, hca, _, hmem⟩ :=
      sendAttempts_allFail n d outcomes n 0 (by omega)
        (by intro j hj; rw [Nat.zero_add]; exact hfail j hj)
    refine ⟨evs, ?_, hca, hmem⟩
    rw [send_metrics_eq cfg u n d outcomes hcs hra hrd, hrun]
  · intro i
    simp [runCycles, List.getElem?_map]

/-- Collector that always fails at transport level. -/
def outcomesAllFail : Nat → AttemptOutcome := fun _ => AttemptOutcome.transportError

theorem C4_exhaustion_drops_sample_witness :
    ∃ evs, send_metrics (defaultConfig "host") outcomesAllFail = Except.ok (evs, false) ∧
      countAttempts evs = 3 ∧ Event.logExhausted ∈ evs :=
  (C4_exhaustion_drops_sample (defaultConfig "host") "http://localhost:5000" "host" 3 10
    outcomesAllFail [] rfl rfl rfl (by decide) (by decide)).1

/-- C9: with `retry_attempts = 0` the loop body never runs: zero HTTP
attempts, zero sleeps, the attempts-exhausted error is logged, and the
result is `false`. -/
theorem C9_zero_attempts (cfg : Config) (u : String) (outcomes : Nat → AttemptOutcome)
    (hcs : cfg.central_server = some u) (hra : cfg.retry_attempts = some 0) :
    send_metrics cfg outcomes = Except.ok ([Event.logExhausted], false) ∧
    countAttempts [Event.logExhausted] = 0 ∧
    countSleeps [Event.logExhausted] = 0 := by
  refine ⟨?_, by simp, by simp⟩
  simp only [send_metrics, hcs, hra]
  rfl

/-- Configuration for the C9 witness: defaults with `retry_attempts = 0`. -/
def cfgC9 : Config := { defaultConfig "host" with retry_attempts := some 0 }

theorem C9_zero_attempts_witness :
    send_metrics cfgC9 outcomesAllFail = Except.ok ([Event.logExhausted], false) ∧
    countAttempts [Event.logExhausted] = 0 ∧
    countSleeps [Event.logExhausted] = 0 :=
  C9_zero_attempts cfgC9 "http://localhost:5000" outcomesAllFail rfl rfl

/-- C2 states the intent of the spec but not the behaviour of the code:
`load_config`
handles only `FileNotFoundError`; a present-but-malformed file raises
`json.JSONDecodeError` and an unreadable one raises `OSError`, both crashing
startup instead of falling back to the defaults (only an absent file does). -/
theorem C2_malformed_config_crashes :
    load_config ConfigSource.malformed "host" = Except.error LoadError.jsonDecodeError ∧
    load_config ConfigSource.unreadable "host" = Except.error LoadError.oserror ∧
    load_config ConfigSource.malformed "host" ≠ Except.ok (defaultConfig "host") ∧
    load_config ConfigSource.absent "host" = Except.ok (defaultConfig "host") := by
  refine ⟨rfl, rfl, by simp [load_config], rfl⟩

/-- C6: an absent configuration file yields the complete built-in default
set — all five fields populated with the fixed defaults — with no partial
merging. -/
theorem C6_absent_full_defaults (host : String) :
    load_config ConfigSource.absent host = Except.ok (defaultConfig host) ∧
    (defaultConfig host).central_server = some "http://localhost:5000" ∧
    (defaultConfig host).server_name = some host ∧
    (defaultConfig host).collect_interval = some 60 ∧
    (defaultConfig host).retry_attempts = some 3 ∧
    (defaultConfig host).retry_delay = some 10 :=
  ⟨rfl, rfl, rfl, rfl, rfl, rfl⟩

/-- C10: a present, valid JSON file is used exactly as-is (no merging of
defaults); an omitted `server_name` is replaced by the hostname at startup
via `config.get`, while an omitted `central_server` or `retry_attempts`
makes `send_metrics` raise the corresponding `KeyError`. -/
theorem C10_valid_config_no_merge (cfg : Config) (host : String)
    (outcomes : Nat → AttemptOutcome) :
    load_config (ConfigSource.valid cfg) host = Except.ok cfg ∧
    (cfg.server_name = none → initServerName cfg host = host) ∧
    (∀ sn, cfg.server_name = some sn → initServerName cfg host = sn) ∧
    (cfg.central_server = none →
      send_metrics cfg outcomes = Except.error (PyError.keyError "central_server")) ∧
    (∀ u, cfg.central_server = some u → cfg.retry_attempts = none →
      send_metrics cfg outcomes = Except.error (PyError.keyError "retry_attempts")) := by
  refine ⟨rfl, ?_, ?_, ?_, ?_⟩
  · intro h
    simp [initServerName, h]
  · intro sn h
    simp [initServerName, h]
  · intro h
    simp [send_metrics, h]
  · intro u h1 h2
    simp [send_metrics, h1, h2]

/-- The configuration dictionary of an empty JSON object. -/
def cfgEmpty : Config := ⟨none, none, none, none, none⟩

theorem C10_valid_config_no_merge_witness :
    send_metrics cfgEmpty outcomesAllFail =
      Except.error (PyError.keyError "central_server") :=
  ((C10_valid_config_no_merge cfgEmpty "host" outcomesAllFail).2.2.2.1) rfl

/-- A produced sample determines that every psutil query succeeded, and pins
the value of the sample to the dictionary literal of the source. -/
theorem collect_metrics_some (name : String) (os : OSReading) (m : Metrics)
    (h : collect_metrics name os = some m) :
    ∃ cp cc mem dk net la pc,
      os.cpu_percent = Except.ok cp ∧ os.cpu_count = Except.ok cc ∧
      os.memory = Except.ok mem ∧ os.disk = Except.ok dk ∧
      os.network = Except.ok net ∧ resolveLoadAvg os.getloadavg = some la ∧
      os.pids_len = Except.ok pc ∧
      m = mkMetrics name os.timestamp cp cc la mem dk net pc := by
  rcases hcp : os.cpu_percent with e | cp
  · simp [collect_metrics, hcp] at h
  rcases hcc : os.cpu_count with e | cc
  · simp [collect_metrics, hcp, hcc] at h
  rcases hmem : os.memory with e | mem
  · simp [collect_metrics, hcp, hcc, hmem] at h
  rcases hdk : os.disk with e | dk
  · simp [collect_metrics, hcp, hcc, hmem, hdk] at h
  rcases hnet : os.network with e | net
  · simp [collect_metrics, hcp, hcc, hmem, hdk, hnet] at h
  rcases hla : resolveLoadAvg os.getloadavg with _ | la
  · simp [collect_metrics, hcp, hcc, hmem, hdk, hnet, hla] at h
  rcases hpc : os.pids_len with e | pc
  · simp [collect_metrics, hcp, hcc, hmem, hdk, hnet, hla, hpc] at h
  refine ⟨cp, cc, mem, dk, net, la, pc, rfl, rfl, rfl, rfl, rfl, rfl, rfl, ?_⟩
  simp only [collect_metrics, hcp, hcc, hmem, hdk, hnet, hla, hpc,
    Option.some.injEq] at h
  exact h.symm

/-- C7: `disk.percent` of a produced sample is the derived value
`(used / total) * 100` computed from the raw `used` and `total` of the
same sample. -/
theorem C7_disk_percent_derived (name : String) (os : OSReading) (m : Metrics)
    (h : collect_metrics name os = some m) (hpos : 0 < m.disk_total) :
    m.disk_percent = ((m.disk_used : ℚ) / (m.disk_total : ℚ)) * 100 := by
  obtain ⟨cp, cc, mem, dk, net, la, pc, _, _, _, _, _, _, _, hm⟩ :=
    collect_metrics_some name os m h
  subst hm
  rfl

/-- An OS reading on which every psutil query succeeds. -/
def osW : OSReading :=
  { cpu_percent := Except.ok 12
    cpu_count := Except.ok 4
    memory := Except.ok ⟨16000000, 8000000, 50, 7000000, 1000000⟩
    disk := Except.ok ⟨1000, 250, 750⟩
    network := Except.ok ⟨1, 2, 3, 4⟩
    getloadavg := some (Except.ok ⟨1, 2, 3⟩)
    pids_len := Except.ok 100
    timestamp := "2026-10-12T00:00:00" }

/-- The sample collected from `osW`. -/
def mW : Metrics :=
  mkMetrics "host" "2026-10-12T00:00:00" 12 4 ⟨1, 2, 3⟩
    ⟨16000000, 8000000, 50, 7000000, 1000000⟩ ⟨1000, 250, 750⟩ ⟨1, 2, 3, 4⟩ 100

theorem C7_disk_percent_derived_witness :
    mW.disk_percent = ((mW.disk_used : ℚ) / (mW.disk_total : ℚ)) * 100 :=
  C7_disk_percent_derived "host" osW mW rfl (by decide)

/-- C8: the load-average fields of a produced sample are all zero on a platform
without `getloadavg`, and equal the OS-reported values on a platform that
exposes it. -/
theorem C8_load_avg_zero_filled (name : String) (os : OSReading) (m : Metrics)
    (h : collect_metrics name os = some m) :
    (os.getloadavg = none →
      m.load_avg_1m = 0 ∧ m.load_avg_5m = 0 ∧ m.load_avg_15m = 0) ∧
    (∀ la, os.getloadavg = some (Except.ok la) →
      m.load_avg_1m = la.one ∧ m.load_avg_5m = la.five ∧
        m.load_avg_15m = la.fifteen) := by
  obtain ⟨cp, cc, mem, dk, net, la, pc, _, _, _, _, _, hla, _, hm⟩ :=
    collect_metrics_some name os m h
  subst hm
  constructor
  · intro hnone
    rw [hnone] at hla
    rcases la with ⟨l1, l5, l15⟩
    simp only [resolveLoadAvg, Option.some.injEq, LoadAvg.mk.injEq] at hla
    obtain ⟨h1, h5, h15⟩ := hla
    exact ⟨h1.symm, h5.symm, h15.symm⟩
  · intro la' hsome
    rw [hsome] at hla
    simp only [resolveLoadAvg, exceptToOption, Option.some.injEq] at hla
    rw [hla]
    exact ⟨rfl, rfl, rfl⟩

/-- Same as `osW`, except that the platform exposes no `getloadavg`. -/
def osNoLoad : OSReading := { osW with getloadavg := none }

/-- The sample collected from `osNoLoad`: load averages zero-filled. -/
def mNoLoad : Metrics :=
  mkMetrics "host" "2026-10-12T00:00:00" 12 4 ⟨0, 0, 0⟩
    ⟨16000000, 8000000, 50, 7000000, 1000000⟩ ⟨1000, 250, 750⟩ ⟨1, 2, 3, 4⟩ 100

theorem C8_load_avg_zero_filled_witness :
    mNoLoad.load_avg_1m = 0 ∧ mNoLoad.load_avg_5m = 0 ∧ mNoLoad.load_avg_15m = 0 :=
  (C8_load_avg_zero_filled "host" osNoLoad mNoLoad rfl).1 rfl

/-- C5: a failure in any counter category yields no sample at all, and the
cycle then performs no send attempt, logs the collection error, and still
sleeps `collect_interval` seconds before the next cycle. -/
theorem C5_collect_failure_skips_send (cfg : Config) (name : String)
    (inp : CycleInput) (ci : Nat)
    (hci : cfg.collect_interval = some ci)
    (hfail : inp.os.cpu_percent = Except.error OSError.osError ∨
      inp.os.cpu_count = Except.error OSError.osError ∨
      inp.os.memory = Except.error OSError.osError ∨
      inp.os.disk = Except.error OSError.osError ∨
      inp.os.network = Except.error OSError.osError ∨
      inp.os.getloadavg = some (Except.error OSError.osError) ∨
      inp.os.pids_len = Except.error OSError.osError) :
    collect_metrics name inp.os = none ∧
    runCycle cfg name inp =
      [CycleEvent.logCollectFailed, CycleEvent.sleepInterval ci] := by
  have hnone : collect_metrics name inp.os = none := by
    cases hc : collect_metrics name inp.os with
    | none => rfl
    | some m =>
      obtain ⟨cp, cc, mem, dk, net, la, pc, h1, h2, h3, h4, h5, h6, h7, _⟩ :=
        collect_metrics_some name inp.os m hc
      rcases hfail with h | h | h | h | h | h | h <;>
        simp_all [resolveLoadAvg, exceptToOption]
  refine ⟨hnone, ?_⟩
  simp [runCycle, hnone, withSleep, hci]

/-- Same as `osW`, except that the disk query raises. -/
def osDiskFail : OSReading := { osW with disk := Except.error OSError.osError }

/-- A cycle environment whose collection fails. -/
def inpDiskFail : CycleInput := ⟨osDiskFail, outcomesAllFail⟩

theorem C5_collect_failure_skips_send_witness :
    collect_metrics "host" inpDiskFail.os = none ∧
    runCycle (defaultConfig "host") "host" inpDiskFail =
      [CycleEvent.logCollectFailed, CycleEvent.sleepInterval 60] :=
  C5_collect_failure_skips_send (defaultConfig "host") "host" inpDiskFail 60 rfl
    (Or.inr (Or.inr (Or.inr (Or.inl rfl))))

end MonitorAgent
